import Mathlib

/-!
Shallow embedding of `src/server.js` (MT5 backend, Express HTTP surface over
the MetaApi remote account service).

Each HTTP handler is modelled as a pure function from a `RemoteEnv` — the
outcomes the remote service would return for each kind of remote call during
one request — to an `HttpResponse` together with the ordered trace of remote
calls the handler issues.  Fallible remote calls are `Except String α`
(`error msg` models a rejected promise).  JavaScript falsiness of the string
inputs is modelled by `String.isEmpty` / `missingId`; times are integer
milliseconds since the epoch, with `RemoteEnv.now` standing for `Date.now()`.
-/

namespace MT5Backend

/-- A MetaApi `MetatraderAccount` as the handlers observe it: its id, the
`login` and `server` it was registered with, and the `deployed` / `connected`
flags read at lines 122, 196, 199, 280, 283 of `server.js`. -/
structure Account where
  id : String
  login : String
  server : String
  deployed : Bool
  connected : Bool
deriving Repr, DecidableEq

/-- The query object passed to `getHistoryOrdersByTimeRange`
(`server.js` lines 300-304). Times are integer milliseconds. -/
structure HistoryQuery where
  startTime : Int
  endTime : Int
  limit : Nat
deriving Repr, DecidableEq

/-- One remote call issued by a handler.  `deleteAccount` is a capability of
the remote SDK that `server.js` never invokes; it is included so that its
absence from every trace is expressible. -/
inductive CallEvent where
  | getAccounts
  | createAccount (login server : String)
  | getAccount (accountId : String)
  | deploy (accountId : String)
  | waitConnected (accountId : String) (timeoutSeconds : Nat)
  | getAccountInformation (accountId : String)
  | getHistoryOrdersByTimeRange (accountId : String) (query : HistoryQuery)
  | undeploy (accountId : String)
  | deleteAccount (accountId : String)
deriving Repr, DecidableEq

/-- The HTTP status and `success` flag of a handler response, plus the
`accountId` field included in the success body of `/api/mt5/connect`
(`server.js` line 139). -/
structure HttpResponse where
  status : Nat
  success : Bool
  accountId : Option String := none
deriving Repr, DecidableEq

/-- Outcomes of each kind of remote call during one request: what the remote
service would answer if the handler issues that call. -/
structure RemoteEnv where
  getAccountsResult : Except String (List Account)
  createAccountResult : Except String Account
  getAccountResult : Except String (Option Account)
  deployResult : Except String Unit
  waitConnectedResult : Except String Unit
  accountInformationResult : Except String Unit
  historyResult : Except String Unit
  undeployResult : Except String Unit
  now : Int
deriving Repr

/-- JavaScript `String.prototype.toLowerCase` on the ASCII fragment
(`server.js` line 88), mapping each character to lowercase. -/
def lowerStr (s : String) : String := ⟨s.data.map Char.toLower⟩

/-- The existing-account lookup of `server.js` lines 86-89:
`accounts.find(acc => acc.login === login.toString() &&
acc.server.toLowerCase() === server.toLowerCase())` (the handler's `login`
is already a string here, so `toString` is the identity). -/
def findExistingAccount (accounts : List Account) (login server : String) :
    Option Account :=
  accounts.find? fun acc =>
    acc.login == login && lowerStr acc.server == lowerStr server

/-- A missing/empty query or body field: JavaScript `!accountId`
(`server.js` lines 164, 251, 332). -/
def missingId (accountId : Option String) : Bool :=
  match accountId with
  | none => true
  | some a => a.isEmpty

/-- The deploy/wait/fetch phase of the connect handler (`server.js` lines
120-149): deploy only if not deployed, `waitConnected(60)`, then
`getAccountInformation`; any rejection is caught and answered with 500. -/
def connectDeployAndFetch (env : RemoteEnv) (account : Account)
    (trace0 : List CallEvent) : HttpResponse × List CallEvent :=
  let step1 : Except String Unit × List CallEvent :=
    if account.deployed then (Except.ok (), trace0)
    else (env.deployResult, trace0 ++ [CallEvent.deploy account.id])
  match step1 with
  | (Except.error _, tr) => (⟨500, false, none⟩, tr)
  | (Except.ok _, tr) =>
    let tr := tr ++ [CallEvent.waitConnected account.id 60]
    match env.waitConnectedResult with
    | Except.error _ => (⟨500, false, none⟩, tr)
    | Except.ok _ =>
      let tr := tr ++ [CallEvent.getAccountInformation account.id]
      match env.accountInformationResult with
      | Except.error _ => (⟨500, false, none⟩, tr)
      | Except.ok _ => (⟨200, true, some account.id⟩, tr)

/-- `POST /api/mt5/connect` (`server.js` lines 69-157).  Missing fields give
400; a failed `getAccounts` lookup is swallowed (treated as no match, lines
94-96); if no account matches, `createAccount` is called and its failure is a
fatal 500 (lines 111-117); otherwise the existing account is reused. -/
def connectHandler (env : RemoteEnv) (server login password : String) :
    HttpResponse × List CallEvent :=
  if server.isEmpty || login.isEmpty || password.isEmpty then
    (⟨400, false, none⟩, [])
  else
    let found : Option Account :=
      match env.getAccountsResult with
      | Except.ok accounts => findExistingAccount accounts login server
      | Except.error _ => none
    let tr := [CallEvent.getAccounts]
    match found with
    | some account => connectDeployAndFetch env account tr
    | none =>
      let tr := tr ++ [CallEvent.createAccount login server]
      match env.createAccountResult with
      | Except.error _ => (⟨500, false, none⟩, tr)
      | Except.ok account => connectDeployAndFetch env account tr

/-- The remediation pass shared by the account-info and history handlers
(`server.js` lines 196-210 and 280-294): if the account is not connected,
deploy when not deployed, then `waitConnected(30)`; a deploy rejection skips
the wait.  Returns the outcome of the pass and the extended trace. -/
def remediate (env : RemoteEnv) (account : Account)
    (trace0 : List CallEvent) : Except String Unit × List CallEvent :=
  if account.connected then (Except.ok (), trace0)
  else
    let step1 : Except String Unit × List CallEvent :=
      if account.deployed then (Except.ok (), trace0)
      else (env.deployResult, trace0 ++ [CallEvent.deploy account.id])
    match step1 with
    | (Except.error e, tr) => (Except.error e, tr)
    | (Except.ok _, tr) =>
      (env.waitConnectedResult, tr ++ [CallEvent.waitConnected account.id 30])

/-- `GET /api/mt5/account-info` (`server.js` lines 160-244).  Missing id
gives 400; a `getAccount` rejection gives 500; an unknown account gives 404;
a failed remediation pass gives 400 (lines 203-209); a failed
`getAccountInformation` gives 500. -/
def accountInfoHandler (env : RemoteEnv) (accountId : Option String) :
    HttpResponse × List CallEvent :=
  if missingId accountId then (⟨400, false, none⟩, [])
  else
    let aid := accountId.getD ""
    let tr := [CallEvent.getAccount aid]
    match env.getAccountResult with
    | Except.error _ => (⟨500, false, none⟩, tr)
    | Except.ok none => (⟨404, false, none⟩, tr)
    | Except.ok (some account) =>
      match remediate env account tr with
      | (Except.error _, tr) => (⟨400, false, none⟩, tr)
      | (Except.ok _, tr) =>
        let tr := tr ++ [CallEvent.getAccountInformation account.id]
        match env.accountInformationResult with
        | Except.error _ => (⟨500, false, none⟩, tr)
        | Except.ok _ => (⟨200, true, none⟩, tr)

/-- The history query built at `server.js` lines 300-304: `startDate` and
`endDate` default to `Date.now() - 30*24*60*60*1000` and `Date.now()`, and
the limit is the literal 1000. -/
def mkHistoryQuery (now : Int) (startDate endDate : Option Int) :
    HistoryQuery :=
  { startTime :=
      match startDate with
      | some t => t
      | none => now - 30 * 24 * 60 * 60 * 1000
    endTime :=
      match endDate with
      | some t => t
      | none => now
    limit := 1000 }

/-- `GET /api/mt5/history` (`server.js` lines 247-325).  Same shape as the
account-info handler, fetching `getHistoryOrdersByTimeRange` with the query
of `mkHistoryQuery`. -/
def historyHandler (env : RemoteEnv) (accountId : Option String)
    (startDate endDate : Option Int) : HttpResponse × List CallEvent :=
  if missingId accountId then (⟨400, false, none⟩, [])
  else
    let aid := accountId.getD ""
    let tr := [CallEvent.getAccount aid]
    match env.getAccountResult with
    | Except.error _ => (⟨500, false, none⟩, tr)
    | Except.ok none => (⟨404, false, none⟩, tr)
    | Except.ok (some account) =>
      match remediate env account tr with
      | (Except.error _, tr) => (⟨400, false, none⟩, tr)
      | (Except.ok _, tr) =>
        let tr := tr ++ [CallEvent.getHistoryOrdersByTimeRange account.id
          (mkHistoryQuery env.now startDate endDate)]
        match env.historyResult with
        | Except.error _ => (⟨500, false, none⟩, tr)
        | Except.ok _ => (⟨200, true, none⟩, tr)

/-- `POST /api/mt5/disconnect` (`server.js` lines 328-382).  Missing id gives
400; a `getAccount` rejection gives 500; an unknown account gives 404;
otherwise a single unconditional `undeploy` is issued, whose rejection gives
500. -/
def disconnectHandler (env : RemoteEnv) (accountId : Option String) :
    HttpResponse × List CallEvent :=
  if missingId accountId then (⟨400, false, none⟩, [])
  else
    let aid := accountId.getD ""
    let tr := [CallEvent.getAccount aid]
    match env.getAccountResult with
    | Except.error _ => (⟨500, false, none⟩, tr)
    | Except.ok none => (⟨404, false, none⟩, tr)
    | Except.ok (some account) =>
      let tr := tr ++ [CallEvent.undeploy account.id]
      match env.undeployResult with
      | Except.error _ => (⟨500, false, none⟩, tr)
      | Except.ok _ => (⟨200, true, none⟩, tr)

/-- The ensure-deployed step of `server.js` lines 122-127 / 199-201 / 283-285
as a step on the account: if the account is already deployed nothing is
issued, otherwise one deploy call is issued and (on the success path the SDK
records) the account becomes deployed.  Returns the resulting account and
the number of deploy calls issued. -/
def ensureDeployed (account : Account) : Account × Nat :=
  if account.deployed then (account, 0)
  else ({ account with deployed := true }, 1)

/-- Number of `createAccount` calls in a trace. -/
def createCalls (tr : List CallEvent) : Nat :=
  (tr.filter fun e =>
    match e with
    | CallEvent.createAccount _ _ => true
    | _ => false).length

/-- Number of `deploy` calls in a trace. -/
def deployCalls (tr : List CallEvent) : Nat :=
  (tr.filter fun e =>
    match e with
    | CallEvent.deploy _ => true
    | _ => false).length

/-- Number of `waitConnected` calls in a trace. -/
def waitCalls (tr : List CallEvent) : Nat :=
  (tr.filter fun e =>
    match e with
    | CallEvent.waitConnected _ _ => true
    | _ => false).length

end MT5Backend

namespace MT5Backend

/-! ### Helper lemmas about the deploy/wait/fetch phase and the remediation
pass, used by several claim theorems below. -/

theorem createCalls_append (l1 l2 : List CallEvent) :
    createCalls (l1 ++ l2) = createCalls l1 + createCalls l2 := by
  simp [createCalls, List.filter_append]

theorem deployCalls_append (l1 l2 : List CallEvent) :
    deployCalls (l1 ++ l2) = deployCalls l1 + deployCalls l2 := by
  simp [deployCalls, List.filter_append]

theorem waitCalls_append (l1 l2 : List CallEvent) :
    waitCalls (l1 ++ l2) = waitCalls l1 + waitCalls l2 := by
  simp [waitCalls, List.filter_append]

theorem cdaf_trace_prefix (env : RemoteEnv) (account : Account)
    (trace0 : List CallEvent) :
    ∃ rest, (connectDeployAndFetch env account trace0).2 = trace0 ++ rest := by
  obtain ⟨ga, ca, g1, dr, wr, ir, hr, ur, n⟩ := env
  obtain ⟨aid, lg, sv, dep, con⟩ := account
  cases dep <;> cases dr <;> cases wr <;> cases ir <;>
    simp [connectDeployAndFetch, List.append_assoc]

theorem cdaf_createCalls (env : RemoteEnv) (account : Account)
    (trace0 : List CallEvent) :
    createCalls (connectDeployAndFetch env account trace0).2 =
      createCalls trace0 := by
  obtain ⟨ga, ca, g1, dr, wr, ir, hr, ur, n⟩ := env
  obtain ⟨aid, lg, sv, dep, con⟩ := account
  cases dep <;> cases dr <;> cases wr <;> cases ir <;>
    simp [connectDeployAndFetch, createCalls, List.filter_append]

theorem cdaf_deployCalls_deployed (env : RemoteEnv) (account : Account)
    (trace0 : List CallEvent) (h : account.deployed = true) :
    deployCalls (connectDeployAndFetch env account trace0).2 =
      deployCalls trace0 := by
  obtain ⟨ga, ca, g1, dr, wr, ir, hr, ur, n⟩ := env
  obtain ⟨aid, lg, sv, dep, con⟩ := account
  simp only [] at h
  subst h
  cases wr <;> cases ir <;>
    simp [connectDeployAndFetch, deployCalls, List.filter_append]

theorem cdaf_success_accountId (env : RemoteEnv) (account : Account)
    (trace0 : List CallEvent) :
    (connectDeployAndFetch env account trace0).1.success = true →
    (connectDeployAndFetch env account trace0).1.accountId =
      some account.id := by
  obtain ⟨ga, ca, g1, dr, wr, ir, hr, ur, n⟩ := env
  obtain ⟨aid, lg, sv, dep, con⟩ := account
  cases dep <;> cases dr <;> cases wr <;> cases ir <;>
    simp [connectDeployAndFetch]

theorem cdaf_wait_mem (env : RemoteEnv) (account : Account)
    (trace0 : List CallEvent) (i : String) (t : Nat) :
    CallEvent.waitConnected i t ∈ (connectDeployAndFetch env account trace0).2 →
    CallEvent.waitConnected i t ∈ trace0 ∨ t = 60 := by
  obtain ⟨ga, ca, g1, dr, wr, ir, hr, ur, n⟩ := env
  obtain ⟨aid, lg, sv, dep, con⟩ := account
  cases dep <;> cases dr <;> cases wr <;> cases ir <;>
    simp [connectDeployAndFetch] <;> tauto

end MT5Backend

namespace MT5Backend

theorem remediate_trace_prefix (env : RemoteEnv) (account : Account)
    (trace0 : List CallEvent) :
    ∃ rest, (remediate env account trace0).2 = trace0 ++ rest := by
  obtain ⟨ga, ca, g1, dr, wr, ir, hr, ur, n⟩ := env
  obtain ⟨aid, lg, sv, dep, con⟩ := account
  cases con <;> cases dep <;> cases dr <;>
    simp [remediate, List.append_assoc]

theorem remediate_wait_mem (env : RemoteEnv) (account : Account)
    (trace0 : List CallEvent) (i : String) (t : Nat) :
    CallEvent.waitConnected i t ∈ (remediate env account trace0).2 →
    CallEvent.waitConnected i t ∈ trace0 ∨ t = 30 := by
  obtain ⟨ga, ca, g1, dr, wr, ir, hr, ur, n⟩ := env
  obtain ⟨aid, lg, sv, dep, con⟩ := account
  cases con <;> cases dep <;> cases dr <;>
    simp [remediate] <;> tauto

theorem remediate_deployCalls (env : RemoteEnv) (account : Account)
    (trace0 : List CallEvent) (h : account.connected = false) :
    deployCalls (remediate env account trace0).2 =
      deployCalls trace0 + (if account.deployed then 0 else 1) := by
  obtain ⟨ga, ca, g1, dr, wr, ir, hr, ur, n⟩ := env
  obtain ⟨aid, lg, sv, dep, con⟩ := account
  simp only [] at h
  subst h
  cases dep <;> cases dr <;>
    simp [remediate, deployCalls, List.filter_append]

theorem remediate_waitCalls (env : RemoteEnv) (account : Account)
    (trace0 : List CallEvent) (h : account.connected = false) :
    waitCalls (remediate env account trace0).2 ≤ waitCalls trace0 + 1 ∧
    ((account.deployed = true ∨ env.deployResult = Except.ok ()) →
      waitCalls (remediate env account trace0).2 = waitCalls trace0 + 1) := by
  obtain ⟨ga, ca, g1, dr, wr, ir, hr, ur, n⟩ := env
  obtain ⟨aid, lg, sv, dep, con⟩ := account
  simp only [] at h
  subst h
  cases dep <;> cases dr <;>
    simp [remediate, waitCalls, List.filter_append]

end MT5Backend

namespace MT5Backend

/-- C1: with non-empty server, login and password, the connect handler first
lists existing accounts; when one matches the input login exactly and the
input server case-insensitively it is reused: the matched account satisfies
exactly those two equations, the trace starts with the listing call, no
`createAccount` call is issued, and a successful response carries the
existing account's id. -/
theorem connect_reuses_existing_account (env : RemoteEnv)
    (server login password : String) (accounts : List Account)
    (account : Account)
    (hs : server.isEmpty = false) (hl : login.isEmpty = false)
    (hp : password.isEmpty = false)
    (hlist : env.getAccountsResult = Except.ok accounts)
    (hfind : findExistingAccount accounts login server = some account) :
    account.login = login ∧ lowerStr account.server = lowerStr server ∧
    (connectHandler env server login password).2.head? =
      some CallEvent.getAccounts ∧
    createCalls (connectHandler env server login password).2 = 0 ∧
    ((connectHandler env server login password).1.success = true →
      (connectHandler env server login password).1.accountId =
        some account.id) := by
  have hred : connectHandler env server login password =
      connectDeployAndFetch env account [CallEvent.getAccounts] := by
    simp [connectHandler, hs, hl, hp, hlist, hfind]
  unfold findExistingAccount at hfind
  have hpred := List.find?_some hfind
  simp only [Bool.and_eq_true, beq_iff_eq] at hpred
  refine ⟨hpred.1, hpred.2, ?_, ?_, ?_⟩
  · rw [hred]
    obtain ⟨rest, hrest⟩ := cdaf_trace_prefix env account [CallEvent.getAccounts]
    rw [hrest]
    rfl
  · rw [hred, cdaf_createCalls]
    rfl
  · rw [hred]
    exact cdaf_success_accountId env account [CallEvent.getAccounts]

def c1Account : Account :=
  { id := "id-exist", login := "1001", server := "Acme-Live",
    deployed := true, connected := true }

def c1Env : RemoteEnv :=
  { getAccountsResult := Except.ok [c1Account]
    createAccountResult := Except.error "unused"
    getAccountResult := Except.ok none
    deployResult := Except.ok ()
    waitConnectedResult := Except.ok ()
    accountInformationResult := Except.ok ()
    historyResult := Except.ok ()
    undeployResult := Except.ok ()
    now := 0 }

/-- Witness for C1: connecting with `ACME-LIVE`, differing from the
provisioned `Acme-Live` only in case, issues zero creation calls and a
successful response returns the existing account id. -/
theorem connect_reuses_existing_account_witness :
    createCalls (connectHandler c1Env "ACME-LIVE" "1001" "p").2 = 0 ∧
    ((connectHandler c1Env "ACME-LIVE" "1001" "p").1.success = true →
      (connectHandler c1Env "ACME-LIVE" "1001" "p").1.accountId =
        some "id-exist") :=
  ⟨(connect_reuses_existing_account c1Env "ACME-LIVE" "1001" "p"
      [c1Account] c1Account rfl rfl rfl rfl (by decide)).2.2.2.1,
   (connect_reuses_existing_account c1Env "ACME-LIVE" "1001" "p"
      [c1Account] c1Account rfl rfl rfl rfl (by decide)).2.2.2.2⟩

end MT5Backend

namespace MT5Backend

/-- A remote environment in which every issued call succeeds, used to
instantiate hypotheses of several claim theorems at concrete inputs. -/
def okEnv : RemoteEnv :=
  { getAccountsResult := Except.ok []
    createAccountResult := Except.error "create rejected"
    getAccountResult :=
      Except.ok (some ⟨"acc1", "100", "Srv", true, false⟩)
    deployResult := Except.ok ()
    waitConnectedResult := Except.ok ()
    accountInformationResult := Except.ok ()
    historyResult := Except.ok ()
    undeployResult := Except.ok ()
    now := 1000 }

/-- C4: ensuring deployment is idempotent.  An already-deployed account gets
no deploy call (both in the extracted step and inside the connect handler's
deploy phase), and running the ensure-deployed step twice in a row issues at
most one deploy call in total. -/
theorem ensureDeployed_idempotent (account : Account) :
    (account.deployed = true → (ensureDeployed account).2 = 0) ∧
    (ensureDeployed account).2 +
      (ensureDeployed (ensureDeployed account).1).2 ≤ 1 ∧
    (∀ env trace0, account.deployed = true →
      deployCalls (connectDeployAndFetch env account trace0).2 =
        deployCalls trace0) := by
  refine ⟨?_, ?_, ?_⟩
  · intro h
    simp [ensureDeployed, h]
  · obtain ⟨aid, lg, sv, dep, con⟩ := account
    cases dep <;> simp [ensureDeployed]
  · intro env trace0 h
    exact cdaf_deployCalls_deployed env account trace0 h

/-- Witness for C4 on a concrete already-deployed account. -/
theorem ensureDeployed_idempotent_witness :
    (ensureDeployed ⟨"acc1", "100", "Srv", true, false⟩).2 = 0 ∧
    deployCalls
      (connectDeployAndFetch okEnv ⟨"acc1", "100", "Srv", true, false⟩ []).2 =
      deployCalls [] :=
  ⟨(ensureDeployed_idempotent ⟨"acc1", "100", "Srv", true, false⟩).1 rfl,
   (ensureDeployed_idempotent ⟨"acc1", "100", "Srv", true, false⟩).2.2
     okEnv [] rfl⟩

/-- C5: on the history endpoint, an omitted startDate resolves to now minus
30 days (in milliseconds), an omitted endDate to now, and the limit is always
1000; the query sent to the remote service is exactly `mkHistoryQuery`. -/
theorem history_query_defaults (env : RemoteEnv) (aid : String)
    (account : Account) (startDate endDate : Option Int)
    (hne : aid.isEmpty = false)
    (hga : env.getAccountResult = Except.ok (some account))
    (hconn : account.connected = true) :
    (historyHandler env (some aid) startDate endDate).2 =
      [CallEvent.getAccount aid,
       CallEvent.getHistoryOrdersByTimeRange account.id
         (mkHistoryQuery env.now startDate endDate)] ∧
    (startDate = none →
      (mkHistoryQuery env.now startDate endDate).startTime =
        env.now - 30 * 24 * 60 * 60 * 1000) ∧
    (endDate = none →
      (mkHistoryQuery env.now startDate endDate).endTime = env.now) ∧
    (mkHistoryQuery env.now startDate endDate).limit = 1000 := by
  refine ⟨?_, ?_, ?_, rfl⟩
  · have hrem : remediate env account [CallEvent.getAccount aid] =
        (Except.ok (), [CallEvent.getAccount aid]) := by
      simp [remediate, hconn]
    cases hh : env.historyResult <;>
      simp [historyHandler, missingId, hne, hga, hrem, hh]
  · intro h
    subst h
    rfl
  · intro h
    subst h
    rfl

/-- Witness for C5: both dates omitted on a concrete connected account. -/
theorem history_query_defaults_witness :
    (mkHistoryQuery
        ({ okEnv with
            getAccountResult :=
              Except.ok (some ⟨"acc1", "100", "Srv", true, true⟩) }).now
        none none).startTime = 1000 - 30 * 24 * 60 * 60 * 1000 :=
  (history_query_defaults
      { okEnv with
          getAccountResult :=
            Except.ok (some ⟨"acc1", "100", "Srv", true, true⟩) }
      "a1" ⟨"acc1", "100", "Srv", true, true⟩ none none
      rfl rfl rfl).2.1 rfl

/-- C6: an account-info request for an accountId the remote service does not
recognize answers 404 and issues no deploy and no waitConnected call. -/
theorem accountInfo_not_found (env : RemoteEnv) (aid : String)
    (hne : aid.isEmpty = false)
    (hga : env.getAccountResult = Except.ok none) :
    (accountInfoHandler env (some aid)).1.status = 404 ∧
    (accountInfoHandler env (some aid)).1.success = false ∧
    (accountInfoHandler env (some aid)).2 = [CallEvent.getAccount aid] ∧
    deployCalls (accountInfoHandler env (some aid)).2 = 0 ∧
    waitCalls (accountInfoHandler env (some aid)).2 = 0 := by
  have hred : accountInfoHandler env (some aid) =
      (⟨404, false, none⟩, [CallEvent.getAccount aid]) := by
    simp [accountInfoHandler, missingId, hne, hga]
  rw [hred]
  exact ⟨rfl, rfl, rfl, rfl, rfl⟩

/-- Witness for C6 on a concrete unknown accountId. -/
theorem accountInfo_not_found_witness :
    (accountInfoHandler
        { okEnv with getAccountResult := Except.ok none }
        (some "ghost")).1.status = 404 :=
  (accountInfo_not_found
      { okEnv with getAccountResult := Except.ok none }
      "ghost" rfl rfl).1

/-- C8: on a found account, disconnect issues exactly one unconditional
undeploy (whatever the deployed flag says), surfaces an undeploy rejection
as 500, succeeds with 200 otherwise, and never issues a delete call. -/
theorem disconnect_unconditional_undeploy (env : RemoteEnv) (aid : String)
    (account : Account)
    (hne : aid.isEmpty = false)
    (hga : env.getAccountResult = Except.ok (some account)) :
    (disconnectHandler env (some aid)).2 =
      [CallEvent.getAccount aid, CallEvent.undeploy account.id] ∧
    (∀ e, env.undeployResult = Except.error e →
      (disconnectHandler env (some aid)).1 = ⟨500, false, none⟩) ∧
    (env.undeployResult = Except.ok () →
      (disconnectHandler env (some aid)).1 = ⟨200, true, none⟩) ∧
    (∀ x, CallEvent.deleteAccount x ∉ (disconnectHandler env (some aid)).2) := by
  cases hu : env.undeployResult with
  | error e =>
    have hred : disconnectHandler env (some aid) =
        (⟨500, false, none⟩,
         [CallEvent.getAccount aid, CallEvent.undeploy account.id]) := by
      simp [disconnectHandler, missingId, hne, hga, hu]
    rw [hred]
    refine ⟨rfl, fun e2 h2 => rfl, fun h2 => by simp at h2, ?_⟩
    intro x
    simp
  | ok u =>
    have hred : disconnectHandler env (some aid) =
        (⟨200, true, none⟩,
         [CallEvent.getAccount aid, CallEvent.undeploy account.id]) := by
      simp [disconnectHandler, missingId, hne, hga, hu]
    rw [hred]
    refine ⟨rfl, fun e2 h2 => Except.noConfusion h2, fun h2 => rfl, ?_⟩
    intro x
    simp

/-- Witness for C8: disconnecting a concrete found account. -/
theorem disconnect_unconditional_undeploy_witness :
    (disconnectHandler okEnv (some "acc1")).2 =
      [CallEvent.getAccount "acc1", CallEvent.undeploy "acc1"] :=
  (disconnect_unconditional_undeploy okEnv "acc1"
      ⟨"acc1", "100", "Srv", true, false⟩ rfl rfl).1

end MT5Backend

namespace MT5Backend

/-- C7: in the connect flow a failed account listing is swallowed — the
handler still proceeds to the creation call — while a failed creation call
ends the request at once with 500 and no deploy or wait call. -/
theorem connect_lookup_swallowed_creation_fatal (env : RemoteEnv)
    (server login password : String) (e : String)
    (hs : server.isEmpty = false) (hl : login.isEmpty = false)
    (hp : password.isEmpty = false)
    (hlookup : env.getAccountsResult = Except.error e) :
    (∃ rest, (connectHandler env server login password).2 =
      [CallEvent.getAccounts, CallEvent.createAccount login server] ++ rest) ∧
    (∀ c, env.createAccountResult = Except.error c →
      (connectHandler env server login password).1 = ⟨500, false, none⟩ ∧
      (connectHandler env server login password).2 =
        [CallEvent.getAccounts, CallEvent.createAccount login server]) := by
  constructor
  · cases hc : env.createAccountResult with
    | error c =>
      refine ⟨[], ?_⟩
      simp [connectHandler, hs, hl, hp, hlookup, hc]
    | ok account =>
      have hred : connectHandler env server login password =
          connectDeployAndFetch env account
            [CallEvent.getAccounts, CallEvent.createAccount login server] := by
        simp [connectHandler, hs, hl, hp, hlookup, hc]
      rw [hred]
      exact cdaf_trace_prefix env account _
  · intro c hc
    have hred : connectHandler env server login password =
        (⟨500, false, none⟩,
         [CallEvent.getAccounts, CallEvent.createAccount login server]) := by
      simp [connectHandler, hs, hl, hp, hlookup, hc]
    rw [hred]
    exact ⟨rfl, rfl⟩

/-- Witness for C7: lookup and creation both rejected at a concrete input. -/
theorem connect_lookup_swallowed_creation_fatal_witness :
    (connectHandler
        { okEnv with getAccountsResult := Except.error "listing down" }
        "Srv" "100" "p").1 = ⟨500, false, none⟩ :=
  ((connect_lookup_swallowed_creation_fatal
      { okEnv with getAccountsResult := Except.error "listing down" }
      "Srv" "100" "p" "listing down" rfl rfl rfl rfl).2
    "create rejected" rfl).1

/-- C9: every `waitConnected` the connect handler issues carries the
60-second cold timeout, and every `waitConnected` the account-info or
history handler issues carries the 30-second warm timeout. -/
theorem wait_timeout_policy (env : RemoteEnv)
    (server login password : String) (accountId : Option String)
    (startDate endDate : Option Int) (i : String) (t : Nat) :
    (CallEvent.waitConnected i t ∈
        (connectHandler env server login password).2 → t = 60) ∧
    (CallEvent.waitConnected i t ∈
        (accountInfoHandler env accountId).2 → t = 30) ∧
    (CallEvent.waitConnected i t ∈
        (historyHandler env accountId startDate endDate).2 → t = 30) := by
  obtain ⟨ga, ca, g1, dr, wr, ir, hr, ur, n⟩ := env
  refine ⟨?_, ?_, ?_⟩
  · intro hmem
    by_cases hc : (server.isEmpty || login.isEmpty || password.isEmpty) = true
    · simp [connectHandler, hc] at hmem
    · rcases ga with e | accounts
      · rcases ca with c | ⟨aid2, lg, sv, dep, con⟩
        · simp [connectHandler, hc] at hmem
        · cases dep <;> cases dr <;> cases wr <;> cases ir <;>
            simp [connectHandler, hc, connectDeployAndFetch] at hmem <;>
            tauto
      · rcases hf : findExistingAccount accounts login server with
          _ | ⟨aid2, lg, sv, dep, con⟩
        · rcases ca with c | ⟨aid3, lg3, sv3, dep3, con3⟩
          · simp [connectHandler, hc, hf] at hmem
          · cases dep3 <;> cases dr <;> cases wr <;> cases ir <;>
              simp [connectHandler, hc, hf, connectDeployAndFetch] at hmem <;>
              tauto
        · cases dep <;> cases dr <;> cases wr <;> cases ir <;>
            simp [connectHandler, hc, hf, connectDeployAndFetch] at hmem <;>
            tauto
  · intro hmem
    rcases accountId with _ | aid
    · simp [accountInfoHandler, missingId] at hmem
    · by_cases he : aid.isEmpty
      · simp [accountInfoHandler, missingId, he] at hmem
      · rcases g1 with e | _ | ⟨aid2, lg, sv, dep, con⟩
        · simp [accountInfoHandler, missingId, he] at hmem
        · simp [accountInfoHandler, missingId, he] at hmem
        · cases con <;> cases dep <;> cases dr <;> cases wr <;> cases ir <;>
            simp [accountInfoHandler, missingId, he, remediate] at hmem <;>
            tauto
  · intro hmem
    rcases accountId with _ | aid
    · simp [historyHandler, missingId] at hmem
    · by_cases he : aid.isEmpty
      · simp [historyHandler, missingId, he] at hmem
      · rcases g1 with e | _ | ⟨aid2, lg, sv, dep, con⟩
        · simp [historyHandler, missingId, he] at hmem
        · simp [historyHandler, missingId, he] at hmem
        · cases con <;> cases dep <;> cases dr <;> cases wr <;> cases hr <;>
            simp [historyHandler, missingId, he, remediate] at hmem <;>
            tauto

/-- Witness for C9: a cold connect that creates and waits, and a warm
re-check on a disconnected provisioned account. -/
theorem wait_timeout_policy_witness : (60 : Nat) = 60 ∧ (30 : Nat) = 30 :=
  ⟨(wait_timeout_policy
      { okEnv with createAccountResult :=
          Except.ok ⟨"new1", "100", "Srv", false, false⟩ }
      "Srv" "100" "p" (some "acc1") none none "new1" 60).1 (by decide),
   (wait_timeout_policy
      { okEnv with createAccountResult :=
          Except.ok ⟨"new1", "100", "Srv", false, false⟩ }
      "Srv" "100" "p" (some "acc1") none none "acc1" 30).2.1 (by decide)⟩

/-- C10: whatever accountId, startDate and endDate a caller supplies, every
history query the handler sends to the remote service has limit 1000 — the
HTTP interface offers no way to choose another limit. -/
theorem history_limit_fixed (env : RemoteEnv) (accountId : Option String)
    (startDate endDate : Option Int) (i : String) (q : HistoryQuery) :
    CallEvent.getHistoryOrdersByTimeRange i q ∈
      (historyHandler env accountId startDate endDate).2 →
    q.limit = 1000 := by
  obtain ⟨ga, ca, g1, dr, wr, ir, hr, ur, n⟩ := env
  intro hmem
  rcases accountId with _ | aid
  · simp [historyHandler, missingId] at hmem
  · by_cases he : aid.isEmpty
    · simp [historyHandler, missingId, he] at hmem
    · rcases g1 with e | _ | ⟨aid2, lg, sv, dep, con⟩
      · simp [historyHandler, missingId, he] at hmem
      · simp [historyHandler, missingId, he] at hmem
      · cases con <;> cases dep <;> cases dr <;> cases wr <;> cases hr <;>
          simp [historyHandler, missingId, he, remediate] at hmem <;>
          rcases hmem with ⟨h1, h2⟩ | hmem <;>
          simp_all [mkHistoryQuery]

/-- Witness for C10: a request that supplies both dates still queries with
limit 1000. -/
theorem history_limit_fixed_witness :
    (⟨5, 9, 1000⟩ : HistoryQuery).limit = 1000 :=
  history_limit_fixed
    { okEnv with getAccountResult :=
        Except.ok (some ⟨"acc1", "100", "Srv", true, true⟩) }
    (some "acc1") (some 5) (some 9) "acc1" ⟨5, 9, 1000⟩ (by decide)

end MT5Backend

namespace MT5Backend

/-- C3: on a found account that is not connected, account-info and history
attempt exactly one remediation pass: one deploy call exactly when the
account is not deployed, and — whenever that deploy step does not fail — one
warm `waitConnected`; neither call is ever issued twice in one request. -/
theorem remediation_single_pass (env : RemoteEnv) (aid : String)
    (account : Account) (startDate endDate : Option Int)
    (hne : aid.isEmpty = false)
    (hga : env.getAccountResult = Except.ok (some account))
    (hconn : account.connected = false) :
    (deployCalls (accountInfoHandler env (some aid)).2 =
        (if account.deployed then 0 else 1) ∧
      waitCalls (accountInfoHandler env (some aid)).2 ≤ 1 ∧
      ((account.deployed = true ∨ env.deployResult = Except.ok ()) →
        waitCalls (accountInfoHandler env (some aid)).2 = 1)) ∧
    (deployCalls (historyHandler env (some aid) startDate endDate).2 =
        (if account.deployed then 0 else 1) ∧
      waitCalls (historyHandler env (some aid) startDate endDate).2 ≤ 1 ∧
      ((account.deployed = true ∨ env.deployResult = Except.ok ()) →
        waitCalls (historyHandler env (some aid) startDate endDate).2 = 1)) := by
  obtain ⟨ga, ca, g1, dr, wr, ir, hr, ur, n⟩ := env
  simp only [] at hga
  subst hga
  obtain ⟨aid2, lg, sv, dep, con⟩ := account
  simp only [] at hconn
  subst hconn
  cases dep <;> cases dr <;> cases wr <;> cases ir <;> cases hr <;>
    simp [accountInfoHandler, historyHandler, missingId, hne, remediate,
      deployCalls, waitCalls, List.filter_append]

def c3Env : RemoteEnv :=
  { okEnv with
      getAccountResult :=
        Except.ok (some ⟨"acc1", "100", "Srv", false, false⟩) }

/-- Witness for C3: a disconnected, undeployed concrete account gets exactly
one deploy and one warm wait on the history endpoint. -/
theorem remediation_single_pass_witness :
    deployCalls (historyHandler c3Env (some "acc1") none none).2 =
      (if (false : Bool) then 0 else 1) ∧
    waitCalls (historyHandler c3Env (some "acc1") none none).2 = 1 :=
  ⟨(remediation_single_pass c3Env "acc1" ⟨"acc1", "100", "Srv", false, false⟩
      none none rfl rfl rfl).2.1,
   (remediation_single_pass c3Env "acc1" ⟨"acc1", "100", "Srv", false, false⟩
      none none rfl rfl rfl).2.2.2 (Or.inr rfl)⟩

end MT5Backend

namespace MT5Backend

/-- Whether the remediation pass of an account-info/history request fails
(deploy or warm wait rejected on a found, not-connected account). -/
def remediationFailed (env : RemoteEnv) (accountId : Option String) : Bool :=
  match env.getAccountResult with
  | Except.ok (some account) =>
    match (remediate env account
        [CallEvent.getAccount (accountId.getD "")]).1 with
    | Except.error _ => true
    | Except.ok _ => false
  | _ => false

/-- The literal reading of C2's failure table for the account-info and
history endpoints: on failure, status 400 occurs only for a missing
accountId, and otherwise the status is 404 or 500 (so a failed remediation
connect would have to answer 500). -/
def infoHistoryFailureCodesClaim : Prop :=
  ∀ (env : RemoteEnv) (accountId : Option String)
    (startDate endDate : Option Int),
    ((accountInfoHandler env accountId).1.success = false →
      ((accountInfoHandler env accountId).1.status = 400 ∧
        missingId accountId = true) ∨
      (accountInfoHandler env accountId).1.status = 404 ∨
      (accountInfoHandler env accountId).1.status = 500) ∧
    ((historyHandler env accountId startDate endDate).1.success = false →
      ((historyHandler env accountId startDate endDate).1.status = 400 ∧
        missingId accountId = true) ∨
      (historyHandler env accountId startDate endDate).1.status = 404 ∨
      (historyHandler env accountId startDate endDate).1.status = 500)

def c2Env : RemoteEnv :=
  { okEnv with
      getAccountResult :=
        Except.ok (some ⟨"acc1", "100", "Srv", true, false⟩)
      waitConnectedResult := Except.error "timeout" }

/-- C2 counterexample: with account `acc1` present but disconnected and the
warm wait timing out, the account-info request for `acc1` fails with status
400 although the accountId is not missing, refuting the claim that on these
endpoints 400 occurs only for a missing accountId and that a failed
remediation connect answers 500. -/
theorem infoHistory_failure_codes_counterexample :
    ¬ infoHistoryFailureCodesClaim := by
  intro h
  have h2 := (h c2Env (some "acc1") none none).1
  revert h2
  decide

/-- C2 (amended): on account-info and history the failure statuses are 400,
404 and 500 only; 400 arises only for a missing accountId or a failed
remediation pass (the code answers a failed remediation connect with 400,
not 500); 404 arises only when the remote service does not know the account;
other fetch failures answer 500. -/
theorem infoHistory_failure_codes (env : RemoteEnv)
    (accountId : Option String) (startDate endDate : Option Int) :
    (((accountInfoHandler env accountId).1.success = false →
        (accountInfoHandler env accountId).1.status = 400 ∨
        (accountInfoHandler env accountId).1.status = 404 ∨
        (accountInfoHandler env accountId).1.status = 500) ∧
      ((accountInfoHandler env accountId).1.status = 400 →
        missingId accountId = true ∨ remediationFailed env accountId = true) ∧
      ((accountInfoHandler env accountId).1.status = 404 →
        env.getAccountResult = Except.ok none)) ∧
    (((historyHandler env accountId startDate endDate).1.success = false →
        (historyHandler env accountId startDate endDate).1.status = 400 ∨
        (historyHandler env accountId startDate endDate).1.status = 404 ∨
        (historyHandler env accountId startDate endDate).1.status = 500) ∧
      ((historyHandler env accountId startDate endDate).1.status = 400 →
        missingId accountId = true ∨ remediationFailed env accountId = true) ∧
      ((historyHandler env accountId startDate endDate).1.status = 404 →
        env.getAccountResult = Except.ok none)) := by
  obtain ⟨ga, ca, g1, dr, wr, ir, hr, ur, n⟩ := env
  rcases accountId with _ | aid
  · simp [accountInfoHandler, historyHandler, missingId, remediationFailed]
  · by_cases he : aid.isEmpty
    · simp [accountInfoHandler, historyHandler, missingId, he,
        remediationFailed]
    · rcases g1 with e | _ | ⟨aid2, lg, sv, dep, con⟩
      · simp [accountInfoHandler, historyHandler, missingId, he,
          remediationFailed]
      · simp [accountInfoHandler, historyHandler, missingId, he,
          remediationFailed]
      · cases con <;> cases dep <;> cases dr <;> cases wr <;> cases ir <;>
          cases hr <;>
          simp [accountInfoHandler, historyHandler, missingId, he,
            remediate, remediationFailed]

/-- Witness for the amended C2: a concrete failing request (warm wait times
out) answers with one of the three documented statuses. -/
theorem infoHistory_failure_codes_witness :
    (accountInfoHandler c2Env (some "acc1")).1.status = 400 ∨
    (accountInfoHandler c2Env (some "acc1")).1.status = 404 ∨
    (accountInfoHandler c2Env (some "acc1")).1.status = 500 :=
  (infoHistory_failure_codes c2Env (some "acc1") none none).1.1 (by decide)

end MT5Backend
